import Mathlib

/-!
# Verification of `threads/apis/private.py` (PrivateThreadsApi)

A shallow embedding of the core logic of the `PrivateThreadsApi` class:
the login-token extraction of `_get_instagram_api_token`, the custom
percent-encoding used for the login and thread-creation payloads, the
request construction of `create_thread`, the classification and status
handling of `_upload_image`, and the construction-time session invariant
of `__init__` together with the anonymous `get_user_id` lookup.

Python strings are embedded as `List Char`; Python's `str.find`, slicing
with negative indices, `str.startswith` and `urllib.parse.quote` are
modelled explicitly below.
-/

namespace ThreadsPrivateApi

/-- The backslash character, code 92. -/
def backslashChar : Char := Char.ofNat 92

/-- Python `str.find` restricted to the successful case: the index of the
first occurrence of `needle` in `hay`, or `none` when absent.  On an empty
needle Python returns 0, which the first equation reproduces. -/
def strFind : List Char → List Char → Option Nat
  | [], needle => if needle = [] then some 0 else none
  | c :: tl, needle =>
    if needle.isPrefixOf (c :: tl) then some 0 else (strFind tl needle).map (· + 1)

/-- Python `str.find` proper: `-1` when the needle is absent. -/
def pyFind (hay needle : List Char) : Int :=
  match strFind hay needle with
  | some n => (n : Int)
  | none => -1

/-- Python slice-index normalisation: a negative index counts from the end
(clamped below at 0), a non-negative one is clamped above at the length. -/
def pyBoundIdx (n : Nat) (i : Int) : Nat :=
  if i < 0 then (i + n).toNat else min i.toNat n

/-- Python `s[i:]`. -/
def pySliceFrom (s : List Char) (i : Int) : List Char :=
  s.drop (pyBoundIdx s.length i)

/-- Python `s[a:b]`. -/
def pySlice (s : List Char) (a b : Int) : List Char :=
  (s.take (pyBoundIdx s.length b)).drop (pyBoundIdx s.length a)

/-- The literal `'Bearer IGT:2:'` searched for by `_get_instagram_api_token`
(13 characters). -/
def tokenMarker : List Char :=
  ['B', 'e', 'a', 'r', 'e', 'r', ' ', 'I', 'G', 'T', ':', '2', ':']

/-- The two-character needle `'\\\\'` (a literal double backslash in the
Python source) searched for after the marker. -/
def doubleBackslash : List Char := [backslashChar, backslashChar]

/-- The token-extraction step of `_get_instagram_api_token`
(`private.py` lines 362-368):

    bearer_key_position = response.text.find('Bearer IGT:2:')
    response_text = response.text[bearer_key_position:]
    backslash_key_position = response_text.find('\\\\')
    token = response_text[13:backslash_key_position]
-/
def extractInstagramApiToken (responseText : List Char) : List Char :=
  let bearerKeyPosition := pyFind responseText tokenMarker
  let rest := pySliceFrom responseText bearerKeyPosition
  let backslashKeyPosition := pyFind rest doubleBackslash
  pySlice rest 13 backslashKeyPosition

example : tokenMarker.length = 13 := by decide

example :
    extractInstagramApiToken
      (['x'] ++ tokenMarker ++ ['A', 'B', 'C', '1', '2', '3'] ++ doubleBackslash ++ ['y'])
      = ['A', 'B', 'C', '1', '2', '3'] := by decide

example : extractInstagramApiToken ['n', 'o', 'p', 'e'] = [] := by decide

/-! ## Lemmas about `strFind` -/

/-- Unfolding equation for `strFind` on a cons cell. -/
lemma strFind_cons (c : Char) (tl needle : List Char) :
    strFind (c :: tl) needle
      = if needle.isPrefixOf (c :: tl) then some 0
        else (strFind tl needle).map (· + 1) := rfl

lemma strFind_le_length {hay needle : List Char} {n : Nat}
    (h : strFind hay needle = some n) : n ≤ hay.length := by
  induction hay generalizing n with
  | nil =>
    rw [show strFind [] needle = if needle = [] then some 0 else none from rfl] at h
    split at h <;> simp_all
  | cons c tl ih =>
    rw [strFind_cons] at h
    split at h
    · simp only [Option.some.injEq] at h
      omega
    · cases h' : strFind tl needle with
      | none => rw [h'] at h; simp at h
      | some m =>
        rw [h'] at h
        simp only [Option.map_some', Option.some.injEq] at h
        have := ih h'
        simp only [List.length_cons]
        omega

/-- A single-backslash prefix test on `t ++ backslashChar :: y` does not
depend on `y`: either `t` is nonempty and only its head matters, or the
explicit backslash is the head. -/
lemma onebs_isPrefixOf_congr (t y z : List Char) :
    List.isPrefixOf [backslashChar] (t ++ backslashChar :: y)
      = List.isPrefixOf [backslashChar] (t ++ backslashChar :: z) := by
  cases t <;> simp [List.isPrefixOf]

/-- If `t ++ '\'` contains no double backslash (hence `t` contains none and
does not end in a backslash), the first double backslash of
`t ++ '\\' ++ r` sits exactly at index `t.length`. -/
lemma strFind_doubleBackslash_append (t r : List Char)
    (h : strFind (t ++ [backslashChar]) doubleBackslash = none) :
    strFind (t ++ doubleBackslash ++ r) doubleBackslash = some t.length := by
  induction t with
  | nil => simp [strFind, doubleBackslash, List.isPrefixOf]
  | cons c tl ih =>
    have hsh : (c :: tl) ++ doubleBackslash ++ r = c :: (tl ++ doubleBackslash ++ r) := by
      simp
    have hsh2 : (c :: tl) ++ [backslashChar] = c :: (tl ++ [backslashChar]) := by simp
    rw [hsh2, strFind_cons] at h
    rw [hsh, strFind_cons]
    by_cases hc : doubleBackslash.isPrefixOf (c :: (tl ++ [backslashChar])) = true
    · rw [if_pos hc] at h
      exact absurd h (by simp)
    · rw [if_neg hc] at h
      have htl : strFind (tl ++ [backslashChar]) doubleBackslash = none := by
        cases h' : strFind (tl ++ [backslashChar]) doubleBackslash with
        | none => rfl
        | some m => rw [h'] at h; simp at h
      have hc2 : ¬ doubleBackslash.isPrefixOf (c :: (tl ++ doubleBackslash ++ r)) = true := by
        intro hcontra
        apply hc
        simp only [doubleBackslash, List.isPrefixOf, Bool.and_eq_true] at hcontra ⊢
        refine ⟨hcontra.1, ?_⟩
        have h2 := hcontra.2
        have e : tl ++ [backslashChar, backslashChar] ++ r
            = tl ++ backslashChar :: (backslashChar :: r) := by simp
        rw [e, onebs_isPrefixOf_congr tl (backslashChar :: r) []] at h2
        simpa using h2
      rw [if_neg hc2, ih htl]
      simp

/-- The 13-character marker contains no backslash, so prepending it to a
string shifts the first double-backslash position by 13. -/
lemma strFind_doubleBackslash_marker (r : List Char) :
    strFind (tokenMarker ++ r) doubleBackslash
      = (strFind r doubleBackslash).map (· + 13) := by
  have hB : ∀ (c : Char) (s : List Char), (backslashChar == c) = false →
      strFind (c :: s) doubleBackslash = (strFind s doubleBackslash).map (· + 1) := by
    intro c s hc
    rw [strFind_cons]
    have hfalse : doubleBackslash.isPrefixOf (c :: s) = false := by
      simp only [doubleBackslash, List.isPrefixOf, hc, Bool.false_and]
    simp [hfalse]
  have e : tokenMarker ++ r
      = 'B' :: 'e' :: 'a' :: 'r' :: 'e' :: 'r' :: ' ' :: 'I' :: 'G' :: 'T'
          :: ':' :: '2' :: ':' :: r := by
    simp [tokenMarker]
  rw [e, hB _ _ (by decide), hB _ _ (by decide), hB _ _ (by decide),
    hB _ _ (by decide), hB _ _ (by decide), hB _ _ (by decide), hB _ _ (by decide),
    hB _ _ (by decide), hB _ _ (by decide), hB _ _ (by decide), hB _ _ (by decide),
    hB _ _ (by decide), hB _ _ (by decide)]
  cases h : strFind r doubleBackslash with
  | none => simp
  | some m => simp only [Option.map_some', Option.some.injEq]

/-- Exactness of the token extraction: on a response of the shape
`a ++ 'Bearer IGT:2:' ++ t ++ '\\' ++ b`, where the marker first occurs
after `a` and `t` neither contains a double backslash nor ends in a
backslash, the extraction returns exactly `t`. -/
lemma extractInstagramApiToken_exact (a t b : List Char)
    (hm : strFind (a ++ tokenMarker ++ t ++ doubleBackslash ++ b) tokenMarker
      = some a.length)
    (ht : strFind (t ++ [backslashChar]) doubleBackslash = none) :
    extractInstagramApiToken (a ++ tokenMarker ++ t ++ doubleBackslash ++ b) = t := by
  set s := a ++ tokenMarker ++ t ++ doubleBackslash ++ b with hs_def
  have hslen : s.length = a.length + (13 + (t.length + (2 + b.length))) := by
    simp only [hs_def, List.length_append, tokenMarker, doubleBackslash]
    simp
    omega
  have hdrop : s.drop a.length = tokenMarker ++ (t ++ (doubleBackslash ++ b)) := by
    have hre : s = a ++ (tokenMarker ++ (t ++ (doubleBackslash ++ b))) := by
      simp [hs_def]
    rw [hre, List.drop_left]
  have hslice : pySliceFrom s ((a.length : Nat) : Int)
      = tokenMarker ++ (t ++ (doubleBackslash ++ b)) := by
    rw [pySliceFrom, pyBoundIdx, if_neg (by omega), Int.toNat_natCast,
      min_eq_left (by omega)]
    exact hdrop
  have hfind2 : strFind (tokenMarker ++ (t ++ (doubleBackslash ++ b))) doubleBackslash
      = some (t.length + 13) := by
    have hinner := strFind_doubleBackslash_append t b ht
    rw [List.append_assoc] at hinner
    rw [strFind_doubleBackslash_marker, hinner]
    simp
  have hrestlen : (tokenMarker ++ (t ++ (doubleBackslash ++ b))).length
      = 13 + (t.length + (2 + b.length)) := by
    simp only [List.length_append, tokenMarker, doubleBackslash]
    simp
  have hmtlen : (tokenMarker ++ t).length = t.length + 13 := by
    simp only [List.length_append]
    have : tokenMarker.length = 13 := by decide
    omega
  rw [extractInstagramApiToken]
  simp only [pyFind, hm, hslice, hfind2]
  rw [pySlice]
  rw [pyBoundIdx, if_neg (by omega),
    show ((13 : Int)).toNat = 13 from by decide,
    min_eq_left (by rw [hrestlen]; omega)]
  rw [pyBoundIdx, if_neg (by omega), Int.toNat_natCast,
    min_eq_left (by rw [hrestlen]; omega)]
  have hre2 : tokenMarker ++ (t ++ (doubleBackslash ++ b))
      = (tokenMarker ++ t) ++ (doubleBackslash ++ b) := by simp
  rw [hre2, List.take_left' hmtlen,
    List.drop_left' (show tokenMarker.length = 13 by decide)]

/-- A two-character needle cannot occur in a haystack of length at most one. -/
lemma strFind_doubleBackslash_none_of_short (hay : List Char)
    (h : hay.length ≤ 1) : strFind hay doubleBackslash = none := by
  cases hay with
  | nil => decide
  | cons c tl =>
    cases tl with
    | nil => simp [strFind_cons, strFind, doubleBackslash, List.isPrefixOf]
    | cons d tl2 => simp at h

/-- When the marker is absent, `find` yields `-1`, the slice
`response.text[-1:]` keeps at most the last character, no double backslash
fits in it, and `[13:-1]` of it is empty: the extraction returns `''`. -/
lemma extractInstagramApiToken_no_marker (s : List Char)
    (h : strFind s tokenMarker = none) : extractInstagramApiToken s = [] := by
  rw [extractInstagramApiToken]
  simp only [pyFind, h]
  set r := pySliceFrom s (-1) with hr_def
  have hrlen : r.length ≤ 1 := by
    rw [hr_def, pySliceFrom, pyBoundIdx, if_pos (by omega), List.length_drop]
    omega
  have hfr : strFind r doubleBackslash = none :=
    strFind_doubleBackslash_none_of_short r hrlen
  simp only [pyFind, hfr]
  rw [pySlice, pyBoundIdx, if_neg (by omega),
    show ((13 : Int)).toNat = 13 from by decide, min_eq_right (by omega)]
  apply List.drop_eq_nil_iff.mpr
  rw [List.length_take]
  omega

/-- When the marker is present at `p` but no double backslash occurs from
`p` on, `find` yields `-1` and `response_text[13:-1]` keeps everything
after the marker except the final character. -/
lemma extractInstagramApiToken_no_backslash (s : List Char) (p : Nat)
    (hp : strFind s tokenMarker = some p)
    (hb : strFind (s.drop p) doubleBackslash = none) :
    extractInstagramApiToken s = (s.drop (p + 13)).dropLast := by
  have hple := strFind_le_length hp
  rw [extractInstagramApiToken]
  simp only [pyFind, hp]
  have hslice : pySliceFrom s ((p : Nat) : Int) = s.drop p := by
    rw [pySliceFrom, pyBoundIdx, if_neg (by omega), Int.toNat_natCast,
      min_eq_left hple]
  rw [hslice]
  simp only [pyFind, hb]
  set r := s.drop p with hr_def
  have hdd : s.drop (p + 13) = r.drop 13 := by
    rw [hr_def, List.drop_drop]
  rw [hdd, pySlice, pyBoundIdx, if_neg (by omega),
    show ((13 : Int)).toNat = 13 from by decide]
  rw [pyBoundIdx, if_pos (by omega)]
  rcases le_or_lt r.length 13 with hle | hgt
  · rw [min_eq_right hle]
    have h1 : (r.take ((-1 + (r.length : Int)).toNat)).drop r.length = [] := by
      apply List.drop_eq_nil_iff.mpr
      rw [List.length_take]
      omega
    have h2 : r.drop 13 = [] := List.drop_eq_nil_iff.mpr hle
    rw [h1, h2]
    rfl
  · rw [min_eq_left (by omega)]
    have htn : ((-1 + (r.length : Int))).toNat = r.length - 1 := by omega
    rw [htn, List.drop_take, List.dropLast_eq_take]
    have hld : (r.drop 13).length = r.length - 13 := List.length_drop 13 r
    rw [hld]
    congr 1

/-! ## Claim theorems about token extraction (C1, C10) -/

/-- C1: for a login response of the shape
`a ++ 'Bearer IGT:2:' ++ t ++ '\\' ++ b` — the marker first occurring
after `a`, and the first double backslash after the marker sitting right
after `t` — the token-extraction step of `_get_instagram_api_token`
returns exactly `t` (e.g. `'Bearer IGT:2:ABC123\\'` yields `'ABC123'`),
and extracting again from a text embedding the already-extracted token
returns the same token: extraction is idempotent and exact. -/
theorem token_extraction_exact_and_idempotent
    (a t b a2 b2 : List Char)
    (hm : strFind (a ++ tokenMarker ++ t ++ doubleBackslash ++ b) tokenMarker
      = some a.length)
    (ht : strFind (t ++ [backslashChar]) doubleBackslash = none)
    (hm2 : strFind (a2 ++ tokenMarker ++ t ++ doubleBackslash ++ b2) tokenMarker
      = some a2.length) :
    extractInstagramApiToken (a ++ tokenMarker ++ t ++ doubleBackslash ++ b) = t ∧
    extractInstagramApiToken
        (a2 ++ tokenMarker
          ++ extractInstagramApiToken (a ++ tokenMarker ++ t ++ doubleBackslash ++ b)
          ++ doubleBackslash ++ b2)
      = extractInstagramApiToken (a ++ tokenMarker ++ t ++ doubleBackslash ++ b) := by
  have h1 := extractInstagramApiToken_exact a t b hm ht
  refine ⟨h1, ?_⟩
  rw [h1]
  exact extractInstagramApiToken_exact a2 t b2 hm2 ht

/-- Witness for C1 at the fixture of the spec: the response fragment
`'xBearer IGT:2:ABC123\\y'` yields exactly `'ABC123'`, and re-embedding
the result reproduces it. -/
theorem token_extraction_exact_and_idempotent_witness :
    extractInstagramApiToken
        (['x'] ++ tokenMarker ++ ['A', 'B', 'C', '1', '2', '3']
          ++ doubleBackslash ++ ['y'])
      = ['A', 'B', 'C', '1', '2', '3'] ∧
    extractInstagramApiToken
        (['z'] ++ tokenMarker
          ++ extractInstagramApiToken
              (['x'] ++ tokenMarker ++ ['A', 'B', 'C', '1', '2', '3']
                ++ doubleBackslash ++ ['y'])
          ++ doubleBackslash ++ [])
      = extractInstagramApiToken
          (['x'] ++ tokenMarker ++ ['A', 'B', 'C', '1', '2', '3']
            ++ doubleBackslash ++ ['y']) :=
  token_extraction_exact_and_idempotent
    ['x'] ['A', 'B', 'C', '1', '2', '3'] ['y'] ['z'] []
    (by decide) (by decide) (by decide)

/-- C10: the token extraction is a total function of the response text.
When the marker `'Bearer IGT:2:'` is absent it returns the empty string
(no Malformed-Response error is signalled), and when the marker is present
at `p` but no double backslash follows, `[13:-1]` slicing returns
everything after the marker with the final character dropped. -/
theorem token_extraction_total_on_malformed (s : List Char) :
    (strFind s tokenMarker = none → extractInstagramApiToken s = []) ∧
    (∀ p : Nat, strFind s tokenMarker = some p →
      strFind (s.drop p) doubleBackslash = none →
      extractInstagramApiToken s = (s.drop (p + 13)).dropLast) :=
  ⟨fun h => extractInstagramApiToken_no_marker s h,
   fun p hp hb => extractInstagramApiToken_no_backslash s p hp hb⟩

/-- Witness for C10: a markerless response extracts to `''`, and a response
that is the marker followed by `'AB'` (no double backslash) extracts to
`'A'` — everything after the marker minus the final character. -/
theorem token_extraction_total_on_malformed_witness :
    extractInstagramApiToken ['n', 'o', 'p', 'e'] = [] ∧
    extractInstagramApiToken (tokenMarker ++ ['A', 'B'])
      = ((tokenMarker ++ ['A', 'B']).drop (0 + 13)).dropLast :=
  ⟨(token_extraction_total_on_malformed ['n', 'o', 'p', 'e']).1 (by decide),
   (token_extraction_total_on_malformed (tokenMarker ++ ['A', 'B'])).2 0
     (by decide) (by decide)⟩

/-! ## The custom percent-encoding (`urllib.parse.quote` with safe set
`!~*'()`), used at `private.py` lines 349-350 and 258 -/

/-- The apostrophe character, code 39. -/
def apostropheChar : Char := Char.ofNat 39

/-- The percent character, code 37. -/
def percentChar : Char := Char.ofNat 37

/-- Python's `urllib.parse` always-safe characters: ASCII letters, digits
and `_ . - ~`, never percent-encoded by `quote` regardless of `safe`. -/
def isAlwaysSafe (c : Char) : Bool :=
  (65 ≤ c.toNat && c.toNat ≤ 90) || (97 ≤ c.toNat && c.toNat ≤ 122)
    || (48 ≤ c.toNat && c.toNat ≤ 57)
    || c.toNat == 95 || c.toNat == 46 || c.toNat == 45 || c.toNat == 126

/-- Upper-case hexadecimal digit for a value below 16, as produced by
`quote`'s `%XX` escapes. -/
def hexDigitChar (n : Nat) : Char :=
  if n < 10 then Char.ofNat (48 + n) else Char.ofNat (55 + n)

/-- The `%XX` escape of one byte.  The embedding works on the ASCII plane
(one character = one byte, faithful for code points below 128; all payload
characters the claims concern are ASCII). -/
def percentEncodeChar (c : Char) : List Char :=
  [percentChar, hexDigitChar (c.toNat / 16 % 16), hexDigitChar (c.toNat % 16)]

/-- `urllib.parse.quote` on one character: kept verbatim when always-safe
or in the caller-supplied `safe` set, `%XX`-escaped otherwise. -/
def pyQuoteChar (safe : List Char) (c : Char) : List Char :=
  if isAlwaysSafe c || safe.contains c then [c] else percentEncodeChar c

/-- `urllib.parse.quote` over a string (ASCII plane). -/
def pyQuote (safe : List Char) : List Char → List Char
  | [] => []
  | c :: cs => pyQuoteChar safe c ++ pyQuote safe cs

/-- The safe set `"!~*'()"` passed to `quote` by `_get_instagram_api_token`
(`private.py` lines 349-350). -/
def loginSafeSet : List Char :=
  ['!', '~', '*', apostropheChar, '(', ')']

/-- The safe set `"!~*'()"` passed to `quote` by `create_thread`
(`private.py` line 258). -/
def createThreadSafeSet : List Char :=
  ['!', '~', '*', apostropheChar, '(', ')']

/-- The login payload encoding: `quote(string=..., safe="!~*'()")` as used
on `params` and `bk_client_context`. -/
def encodeLoginPayload (s : List Char) : List Char :=
  pyQuote loginSafeSet s

/-- The thread-creation payload encoding:
`quote(string=json.dumps(...), safe="!~*'()")`. -/
def encodeCreateThreadPayload (s : List Char) : List Char :=
  pyQuote createThreadSafeSet s

/-- The characters the claim requires to stay unescaped: ASCII letters,
digits, and `! ~ * ' ( )`. -/
def claimAllowlisted (c : Char) : Bool :=
  (65 ≤ c.toNat && c.toNat ≤ 90) || (97 ≤ c.toNat && c.toNat ≤ 122)
    || (48 ≤ c.toNat && c.toNat ≤ 57) || loginSafeSet.contains c

/-- Reserved / special characters outside the allowlist, including the
spec's examples (space, `&`, `=`, `"`): codes
32 34 35 36 37 38 43 44 47 58 59 60 61 62 63 64 91 92 93 94 96 123 124 125. -/
def reservedOtherChars : List Char :=
  [Char.ofNat 32, Char.ofNat 34, Char.ofNat 35, Char.ofNat 36, Char.ofNat 37,
   Char.ofNat 38, Char.ofNat 43, Char.ofNat 44, Char.ofNat 47, Char.ofNat 58,
   Char.ofNat 59, Char.ofNat 60, Char.ofNat 61, Char.ofNat 62, Char.ofNat 63,
   Char.ofNat 64, Char.ofNat 91, Char.ofNat 92, Char.ofNat 93, Char.ofNat 94,
   Char.ofNat 96, Char.ofNat 123, Char.ofNat 124, Char.ofNat 125]

example : encodeLoginPayload ['a', ' ', '&', 'b'] =
    ['a', percentChar, '2', '0', percentChar, '2', '6', 'b'] := by decide

/-- C3: the custom percent-encoding leaves ASCII letters, digits and
`! ~ * ' ( )` unescaped, percent-encodes every other reserved character
(space, `&`, `=`, `"`, ...), and the login-payload encoding and the
thread-creation-payload encoding are the same function applied with the
same safe set, hence agree on every input. -/
theorem custom_percent_encoding_spec :
    (∀ c : Char, claimAllowlisted c = true →
      pyQuoteChar loginSafeSet c = [c]) ∧
    (∀ c ∈ reservedOtherChars,
      pyQuoteChar loginSafeSet c
        = [percentChar, hexDigitChar (c.toNat / 16 % 16), hexDigitChar (c.toNat % 16)]) ∧
    (∀ s : List Char, encodeLoginPayload s = encodeCreateThreadPayload s) := by
  refine ⟨?_, ?_, ?_⟩
  · intro c hc
    rw [pyQuoteChar, if_pos]
    simp only [claimAllowlisted, Bool.or_eq_true, Bool.and_eq_true] at hc
    simp only [isAlwaysSafe, Bool.or_eq_true, Bool.and_eq_true]
    rcases hc with ((h | h) | h) | h <;> tauto
  · decide
  · intro s
    rfl

/-- Witness for C3: evaluated at the letter `a`, the reserved `&`, and the
payload fragment `a&`. -/
theorem custom_percent_encoding_spec_witness :
    pyQuoteChar loginSafeSet 'a' = ['a'] ∧
    pyQuoteChar loginSafeSet '&'
      = [percentChar, hexDigitChar ('&'.toNat / 16 % 16), hexDigitChar ('&'.toNat % 16)] ∧
    encodeLoginPayload ['a', '&'] = encodeCreateThreadPayload ['a', '&'] :=
  ⟨custom_percent_encoding_spec.1 'a' (by decide),
   custom_percent_encoding_spec.2.1 '&' (by decide),
   custom_percent_encoding_spec.2.2 ['a', '&']⟩

/-! ## `create_thread` (`private.py` lines 204-266) -/

/-- The fixed device fingerprint embedded in every `create_thread` payload
(manufacturer `OnePlus`, model `ONEPLUS+A3010`, Android 25 / 7.1.1). -/
structure DeviceFingerprint where
  manufacturer : List Char
  model : List Char
  androidVersion : Nat
  androidRelease : List Char
deriving DecidableEq, Repr

/-- The literal `device` dict of `create_thread`. -/
def onePlusDevice : DeviceFingerprint :=
  { manufacturer := "OnePlus".data
    model := "ONEPLUS+A3010".data
    androidVersion := 25
    androidRelease := "7.1.1".data }

/-- The nested `text_post_app_info` dict: `reply_control` always 0,
`reply_id` present only when a reply target was given,
`link_attachment_url` present only when the URL branch ran. -/
structure TextPostAppInfo where
  replyControl : Nat
  replyId : Option Int
  linkAttachmentUrl : Option (List Char)
deriving DecidableEq, Repr

/-- The value stored under `upload_id`: `int(current_timestamp)` at build
time, overwritten by the result of `_upload_image` (the `upload_id` field
of the upload response JSON) when an image source was given. -/
inductive UploadIdValue where
  | fromTimestamp (ts : Nat)
  | fromUpload (uploadId : Option Int)
deriving DecidableEq, Repr

/-- The `parameters_as_string` dict of `create_thread`; optional fields are
`none` exactly when the corresponding key is absent from the Python dict. -/
structure ThreadParams where
  textPostAppInfo : TextPostAppInfo
  timezoneOffset : List Char
  sourceType : List Char
  caption : List Char
  uid : Int
  deviceId : List Char
  uploadId : UploadIdValue
  device : DeviceFingerprint
  publishMode : Option (List Char)
  sceneCaptureType : Option (List Char)
deriving DecidableEq, Repr

/-- `str(self.timezone_offset)` for the constant `-14400`. -/
def timezoneOffsetString : List Char := "-14400".data

/-- The endpoint chosen by the URL branch. -/
def configureTextOnlyPostEndpoint : List Char :=
  "/media/configure_text_only_post/".data

/-- The endpoint chosen by the image branch. -/
def configureTextPostAppFeedEndpoint : List Char :=
  "/media/configure_text_post_app_feed/".data

/-- Outcome of `create_thread`: either the `ValueError` raised when no
endpoint was selected (no request is issued in that case), or the POST it
builds — endpoint, payload, and whether `_upload_image` was invoked. -/
inductive CreateThreadOutcome where
  | invalidArgument
  | posted (endpoint : List Char) (params : ThreadParams) (uploadCalled : Bool)
deriving DecidableEq, Repr

/-- `create_thread(caption, url, image_url, reply_to)`.  The session state
it reads (`user_id`, `android_device_id`), the clock (`current_timestamp`)
and the result of `_upload_image` (`uploadResult`, the `upload_id` field
of the upload response) are passed as arguments. -/
def create_thread (caption : List Char) (url imageUrl : Option (List Char))
    (replyTo : Option Int) (userId : Int) (deviceId : List Char)
    (currentTimestamp : Nat) (uploadResult : Option Int) : CreateThreadOutcome :=
  let params0 : ThreadParams :=
    { textPostAppInfo :=
        { replyControl := 0, replyId := replyTo, linkAttachmentUrl := none }
      timezoneOffset := timezoneOffsetString
      sourceType := ['4']
      caption := caption
      uid := userId
      deviceId := deviceId
      uploadId := .fromTimestamp currentTimestamp
      device := onePlusDevice
      publishMode := none
      sceneCaptureType := none }
  let step1 : Option (List Char) × ThreadParams :=
    match url with
    | some u =>
      (some configureTextOnlyPostEndpoint,
        { params0 with
            publishMode := some "text_post".data
            textPostAppInfo :=
              { params0.textPostAppInfo with linkAttachmentUrl := some u } })
    | none => (none, params0)
  let step2 : Option (List Char) × ThreadParams × Bool :=
    match imageUrl with
    | some _ =>
      (some configureTextPostAppFeedEndpoint,
        { step1.2 with
            uploadId := .fromUpload uploadResult
            sceneCaptureType := some [] },
        true)
    | none => (step1.1, step1.2, false)
  match step2.1 with
  | none => .invalidArgument
  | some endpoint => .posted endpoint step2.2.1 step2.2.2

/-- C4: with exactly one attachment supplied, `create_thread` targets the
matching endpoint.  URL only: `configure_text_only_post`, payload with
`publish_mode = 'text_post'`, the URL in `link_attachment_url`, and no
`scene_capture_type` key.  Image only: `configure_text_post_app_feed`,
`upload_id` replaced by the upload flow's result, `scene_capture_type`
cleared to `''`, and neither `publish_mode` nor `link_attachment_url`
present. -/
theorem create_thread_exclusive_attachment_endpoints
    (caption u i : List Char) (replyTo : Option Int) (userId : Int)
    (deviceId : List Char) (ts : Nat) (uploadResult : Option Int) :
    create_thread caption (some u) none replyTo userId deviceId ts uploadResult
      = .posted configureTextOnlyPostEndpoint
          { textPostAppInfo :=
              { replyControl := 0, replyId := replyTo, linkAttachmentUrl := some u }
            timezoneOffset := timezoneOffsetString
            sourceType := ['4']
            caption := caption
            uid := userId
            deviceId := deviceId
            uploadId := .fromTimestamp ts
            device := onePlusDevice
            publishMode := some "text_post".data
            sceneCaptureType := none }
          false ∧
    create_thread caption none (some i) replyTo userId deviceId ts uploadResult
      = .posted configureTextPostAppFeedEndpoint
          { textPostAppInfo :=
              { replyControl := 0, replyId := replyTo, linkAttachmentUrl := none }
            timezoneOffset := timezoneOffsetString
            sourceType := ['4']
            caption := caption
            uid := userId
            deviceId := deviceId
            uploadId := .fromUpload uploadResult
            device := onePlusDevice
            publishMode := none
            sceneCaptureType := some [] }
          true :=
  ⟨rfl, rfl⟩

/-- C5: with neither an attachment URL nor an image source,
`create_thread` raises `ValueError` (the Invalid-Argument condition); the
`invalidArgument` outcome carries no request, so no network call is
issued, and the function reads but never writes the session fields. -/
theorem create_thread_no_attachment_invalid_argument
    (caption : List Char) (replyTo : Option Int) (userId : Int)
    (deviceId : List Char) (ts : Nat) (uploadResult : Option Int) :
    create_thread caption none none replyTo userId deviceId ts uploadResult
      = .invalidArgument ∧
    ∀ (endpoint : List Char) (params : ThreadParams) (uploadCalled : Bool),
      create_thread caption none none replyTo userId deviceId ts uploadResult
        ≠ .posted endpoint params uploadCalled := by
  refine ⟨rfl, ?_⟩
  intro endpoint params uploadCalled
  simp [create_thread]

/-- C9: with both attachments supplied, `create_thread` does not raise:
the image branch wins the endpoint (`configure_text_post_app_feed`) and
replaces `upload_id`, while the payload keeps the URL branch's
`publish_mode = 'text_post'` and `link_attachment_url`, so both attachment
shapes appear in one request body. -/
theorem create_thread_both_attachments_image_branch_wins
    (caption u i : List Char) (replyTo : Option Int) (userId : Int)
    (deviceId : List Char) (ts : Nat) (uploadResult : Option Int) :
    create_thread caption (some u) (some i) replyTo userId deviceId ts uploadResult
      = .posted configureTextPostAppFeedEndpoint
          { textPostAppInfo :=
              { replyControl := 0, replyId := replyTo, linkAttachmentUrl := some u }
            timezoneOffset := timezoneOffsetString
            sourceType := ['4']
            caption := caption
            uid := userId
            deviceId := deviceId
            uploadId := .fromUpload uploadResult
            device := onePlusDevice
            publishMode := some "text_post".data
            sceneCaptureType := some [] }
          true ∧
    create_thread caption (some u) (some i) replyTo userId deviceId ts uploadResult
      ≠ .invalidArgument := by
  refine ⟨rfl, ?_⟩
  simp [create_thread]

/-! ## `_upload_image` (`private.py` lines 370-467) -/

/-- `url.startswith('http')` (`private.py` line 400). -/
def uploadIsUrl (url : List Char) : Bool :=
  List.isPrefixOf "http".data url

/-- `not url.startswith('http')` (`private.py` line 401). -/
def uploadIsFilePath (url : List Char) : Bool :=
  ! List.isPrefixOf "http".data url

/-- The distinct `ValueError`s of `_upload_image`, plus the exceptions that
propagate from the file read or the streaming GET. -/
inductive UploadError where
  | invalidImageSource
  | couldNotUpload
  | uploadFailed
  | readException
  | fetchException
deriving DecidableEq, Repr

/-- The part of `_upload_image` after the payload bytes are settled
(`private.py` lines 417-467): the two `is None` guards, the POST, the
status-code check, and the final `response.json().get('upload_id')`.
`fileData`/`fileLength` are exactly the Python locals initialised to
`None` at lines 395-396. -/
def uploadImageFinish (fileData : Option (List Nat)) (fileLength : Option Nat)
    (statusCode : Nat) (respUploadId : Option Int) :
    Except UploadError (Option Int) :=
  if fileData.isNone && fileLength.isNone then .error .couldNotUpload
  else
    if statusCode ≠ 200 then
      if fileData.isNone && fileLength.isNone then .error .uploadFailed
      else .ok respUploadId
    else .ok respUploadId

/-- `_upload_image(url)`.  External effects are passed as arguments:
`readResult` is the outcome of `open(url, 'rb').read()` in the file-path
branch, `fetchResult` that of the streaming GET in the URL branch,
`statusCode` the upload POST's status, `respUploadId` the `upload_id`
field of the upload response JSON. -/
def uploadImage (url : List Char) (readResult : Except Unit (List Nat))
    (fetchResult : Except Unit (List Nat)) (statusCode : Nat)
    (respUploadId : Option Int) : Except UploadError (Option Int) :=
  if uploadIsFilePath url then
    match readResult with
    | .error _ => .error .readException
    | .ok bytes => uploadImageFinish (some bytes) (some bytes.length) statusCode respUploadId
  else if uploadIsUrl url then
    match fetchResult with
    | .error _ => .error .fetchException
    | .ok bytes => uploadImageFinish (some bytes) (some bytes.length) statusCode respUploadId
  else .error .invalidImageSource

/-- C6: every string is classified by `_upload_image` in exactly one way —
remote URL iff it starts with `http`, local file path otherwise — and the
`not is_file_path and not is_url` branch (line 417) is unreachable: no
input produces the invalid-image-source error. -/
theorem upload_image_classification_total (url : List Char) :
    (uploadIsUrl url = !uploadIsFilePath url) ∧
    ((!uploadIsFilePath url && !uploadIsUrl url) = false) ∧
    (∀ (readResult fetchResult : Except Unit (List Nat)) (statusCode : Nat)
        (respUploadId : Option Int),
      uploadImage url readResult fetchResult statusCode respUploadId
        ≠ .error .invalidImageSource) := by
  refine ⟨by rw [uploadIsUrl, uploadIsFilePath, Bool.not_not],
    by rw [uploadIsFilePath, uploadIsUrl, Bool.not_not]; exact Bool.and_not_self _, ?_⟩
  intro readResult fetchResult statusCode respUploadId
  rw [uploadImage.eq_def]
  by_cases h : uploadIsFilePath url = true
  · rw [if_pos h]
    cases readResult with
    | error e => simp
    | ok bytes =>
      by_cases h2 : statusCode = 200 <;> simp [uploadImageFinish.eq_def, h2]
  · rw [if_neg h]
    have hfp : uploadIsFilePath url = false := by
      cases hfp2 : uploadIsFilePath url
      · rfl
      · exact absurd hfp2 h
    have hurl : uploadIsUrl url = true := by
      rw [uploadIsFilePath] at hfp
      rw [uploadIsUrl]
      simpa using hfp
    rw [if_pos hurl]
    cases fetchResult with
    | error e => simp
    | ok bytes =>
      by_cases h2 : statusCode = 200 <;> simp [uploadImageFinish.eq_def, h2]

/-- C2 (code-bug evidence): the `ValueError('Image uploading has been
failed...')` at lines 464-466 is guarded by `response.status_code != 200`
AND `file_data is None and file_length is None`; the identical `is None`
guard already raised at lines 420-421 before the POST, so at line 463 the
payload locals are never both `None` and the raise is dead.  Evaluated at
the spec's failing input — a readable local file whose upload POST returns
HTTP 500 — `_upload_image` does not fail with Upload-Failed: it falls
through and returns `response.json().get('upload_id')` (here absent, i.e.
`None`), and `create_thread` then proceeds to its configure POST. -/
theorem upload_image_http500_returns_instead_of_failing :
    uploadImage "img.jpg".data (.ok [1, 2, 3]) (.ok []) 500 none = .ok none ∧
    (∀ e : UploadError,
      uploadImage "img.jpg".data (.ok [1, 2, 3]) (.ok []) 500 none ≠ .error e) := by
  refine ⟨rfl, ?_⟩
  intro e
  rw [show uploadImage "img.jpg".data (.ok [1, 2, 3]) (.ok []) 500 none
      = .ok none from rfl]
  simp

/-! ## Session construction (`__init__`, `private.py` lines 25-53) and
`get_user_id` (lines 55-70) -/

/-- The fixed header set attached to authenticated calls. -/
structure HeadersModel where
  authorization : Option (List Char)
  userAgent : List Char
  secFetchSite : List Char
  contentType : List Char
deriving DecidableEq, Repr

/-- The fixed device user agent. -/
def barcelonaUserAgent : List Char := "Barcelona 289.0.0.77.109 Android".data

/-- The header dict built at lines 44-49 once the token is known:
`Authorization: Bearer IGT:2:<token>` plus the fixed device headers. -/
def authenticatedHeaders (token : List Char) : HeadersModel :=
  { authorization := some (tokenMarker ++ token)
    userAgent := barcelonaUserAgent
    secFetchSite := "same-origin".data
    contentType := "application/x-www-form-urlencoded; charset=UTF-8".data }

/-- Modelled from the spec: `AbstractThreadsApi.__init__`
(`threads/apis/abstract.py`, imported at `private.py` line 14 but not part
of the sources) establishes the base header set that the anonymous,
read-only `get_user_id` lookup reads; per the spec's invariant, anonymous
mode is usable for that lookup, so the base set carries the fixed device
headers and no Authorization. -/
def abstractBaseHeaders : HeadersModel :=
  { authorization := none
    userAgent := barcelonaUserAgent
    secFetchSite := "same-origin".data
    contentType := "application/x-www-form-urlencoded; charset=UTF-8".data }

/-- The session fields of `PrivateThreadsApi` observable after
construction; an `Option` field is `none` when the attribute holds no
value for the session. -/
structure SessionModel where
  username : Option (List Char)
  password : Option (List Char)
  timezoneOffset : Int
  androidDeviceId : List Char
  instagramApiToken : Option (List Char)
  headers : Option HeadersModel
  userId : Option Int
deriving DecidableEq, Repr

/-- `__init__(username, password)` (lines 25-53).  Network effects are
passed as arguments: `loginResponse` is the login POST's response text
(`.error` for a transport failure, which propagates out of the
constructor), `lookupPk` the result of the `get_user_id` call at line 51
(`.error` when that call raises).  Credentials present: the token is
extracted from the login response, the authenticated headers and the
resolved `user_id` are stored; any failure aborts construction, so no
partially-authenticated session is returned.  Credentials absent: no
token and no user id; the headers come from the spec-modelled
`abstractBaseHeaders`. -/
def initSession (username password : Option (List Char)) (deviceId : List Char)
    (loginResponse : Except Unit (List Char)) (lookupPk : Except Unit Int) :
    Except Unit SessionModel :=
  if username.isSome && password.isSome then
    match loginResponse with
    | .error _ => .error ()
    | .ok text =>
      match lookupPk with
      | .error _ => .error ()
      | .ok uid =>
        .ok { username := username
              password := password
              timezoneOffset := -14400
              androidDeviceId := deviceId
              instagramApiToken := some (extractInstagramApiToken text)
              headers := some (authenticatedHeaders (extractInstagramApiToken text))
              userId := some uid }
  else
    .ok { username := username
          password := password
          timezoneOffset := -14400
          androidDeviceId := deviceId
          instagramApiToken := none
          headers := some abstractBaseHeaders
          userId := none }

/-- `48 ≤ c ≤ 57`: an ASCII decimal digit. -/
def isDigitChar (c : Char) : Bool := 48 ≤ c.toNat && c.toNat ≤ 57

/-- Value of a decimal digit string. -/
def decimalValue (s : List Char) : Int :=
  s.foldl (fun acc c => acc * 10 + ((c.toNat : Int) - 48)) 0

/-- Python `int(...)` restricted to nonempty strings of decimal digits
(the shape of an Instagram `pk`); other inputs raise `ValueError`. -/
def pyParseInt (s : List Char) : Option Int :=
  if !s.isEmpty && s.all isDigitChar then some (decimalValue s) else none

/-- Failure modes of `get_user_id`: reading the undefined `self.headers`
attribute, a response JSON without `user.pk`, or an unparsable `pk`. -/
inductive LookupError where
  | attributeError
  | malformedResponse
  | valueError
deriving DecidableEq, Repr

/-- `get_user_id(username)` (lines 55-70).  It reads `self.headers` before
the request — an `AttributeError` if the attribute was never assigned —
then issues the GET (transport failures propagate and are not modelled)
and parses `response.json().get('user').get('pk')` (passed as `respPk`)
with `int(...)`. -/
def get_user_id (s : SessionModel) (respPk : Option (List Char)) :
    Except LookupError Int :=
  match s.headers with
  | none => .error .attributeError
  | some _ =>
    match respPk with
    | none => .error .malformedResponse
    | some pk =>
      match pyParseInt pk with
      | none => .error .valueError
      | some n => .ok n

/-- C7: every session observable after construction has the bearer token
and the user id either both absent (a credential was missing) or both
present (both credentials supplied and construction succeeded); no
partially-authenticated session escapes. -/
theorem session_token_userid_atomicity
    (username password : Option (List Char)) (deviceId : List Char)
    (loginResponse : Except Unit (List Char)) (lookupPk : Except Unit Int)
    (s : SessionModel)
    (h : initSession username password deviceId loginResponse lookupPk = .ok s) :
    s.instagramApiToken.isSome = s.userId.isSome ∧
    ((username.isSome && password.isSome) = false →
      s.instagramApiToken = none ∧ s.userId = none) ∧
    ((username.isSome && password.isSome) = true →
      ∃ t uid, s.instagramApiToken = some t ∧ s.userId = some uid) := by
  by_cases hc : (username.isSome && password.isSome) = true
  · rw [initSession.eq_def, if_pos hc] at h
    cases loginResponse with
    | error e => simp at h
    | ok text =>
      cases lookupPk with
      | error e => simp at h
      | ok uid =>
        simp only [Except.ok.injEq] at h
        subst h
        refine ⟨rfl, ?_, ?_⟩
        · intro hfalse
          rw [hc] at hfalse
          exact absurd hfalse (by simp)
        · intro _
          exact ⟨_, _, rfl, rfl⟩
  · rw [initSession.eq_def, if_neg hc] at h
    simp only [Except.ok.injEq] at h
    subst h
    exact ⟨rfl, fun _ => ⟨rfl, rfl⟩, fun htrue => absurd htrue hc⟩

/-- Witness for C7: an anonymous construction yields a session with
neither token nor user id. -/
theorem session_token_userid_atomicity_witness :
    ({ username := none
       password := none
       timezoneOffset := -14400
       androidDeviceId := ['d']
       instagramApiToken := none
       headers := some abstractBaseHeaders
       userId := none } : SessionModel).instagramApiToken = none ∧
    ({ username := none
       password := none
       timezoneOffset := -14400
       androidDeviceId := ['d']
       instagramApiToken := none
       headers := some abstractBaseHeaders
       userId := none } : SessionModel).userId = none :=
  (session_token_userid_atomicity none none ['d'] (.error ()) (.error ())
    _ rfl).2.1 rfl

/-- C8: a session constructed without credentials has a defined header
set — the base set from the spec-modelled `AbstractThreadsApi.__init__` —
so `get_user_id` does not fail before its network call for lack of
authenticated-session state, and on a well-formed response it returns the
user's identifier as an integer. -/
theorem anonymous_get_user_id_succeeds
    (deviceId : List Char) (loginResponse : Except Unit (List Char))
    (lookupPk : Except Unit Int) (s : SessionModel) (pk : List Char)
    (hs : initSession none none deviceId loginResponse lookupPk = .ok s)
    (hpk : (!pk.isEmpty && pk.all isDigitChar) = true) :
    s.headers.isSome = true ∧
    get_user_id s (some pk) = .ok (decimalValue pk) := by
  rw [initSession.eq_def] at hs
  rw [if_neg (by simp)] at hs
  simp only [Except.ok.injEq] at hs
  subst hs
  refine ⟨rfl, ?_⟩
  rw [get_user_id]
  simp [pyParseInt, hpk]

/-- Witness for C8: the anonymous session resolves `pk = '42'` to 42. -/
theorem anonymous_get_user_id_succeeds_witness :
    ({ username := none
       password := none
       timezoneOffset := -14400
       androidDeviceId := ['d']
       instagramApiToken := none
       headers := some abstractBaseHeaders
       userId := none } : SessionModel).headers.isSome = true ∧
    get_user_id
      { username := none
        password := none
        timezoneOffset := -14400
        androidDeviceId := ['d']
        instagramApiToken := none
        headers := some abstractBaseHeaders
        userId := none } (some ['4', '2']) = .ok 42 := by
  have h := anonymous_get_user_id_succeeds ['d'] (.ok []) (.ok 0) _ ['4', '2']
    rfl (by decide)
  refine ⟨h.1, ?_⟩
  rw [h.2]
  rfl

end ThreadsPrivateApi
